import Mathlib

/-!
Verification of the `image-annotation-database` repository.

Shallow embedding of the Python sources:
  * `image_annotation/file_utils.py`       (content hashing, ULID construction)
  * `image_annotation/annotated_image_serialization.py` (EXIF metadata codec)
  * `image_annotation/annotation_database.py`           (the record store)
  * `image_annotation/serialization.py`    (structural serializer)
  * `image_annotation/basic_utils.py`      (path classification helpers)

Python strings are modeled as `List Char` (named `Str`), byte strings as
`List Nat`, Python floats as `ℚ`, and Python exceptions as `Except` /
explicit error results.  Filesystem writes performed by the save path are
modeled as an explicit effect trace.
-/

/-- Python `int(x)` on a rational: truncation toward zero. -/
def ratTrunc (q : ℚ) : Int := if 0 ≤ q then ⌊q⌋ else ⌈q⌉

/-- Python strings, modeled as lists of characters. -/
abbrev Str := List Char

namespace FileUtils

/-! ### `get_hash_for_file` (file_utils.py lines 86-132)

The SHA-256 digest itself is an external primitive; what we embed is the
ordered byte stream fed into the hash object (`hash_obj.update` calls),
which fully determines the digest. -/

/-- `sample_size = byte_sampling_threshold // total_samples` (line 119). -/
def sample_size (byte_sampling_threshold total_samples : Nat) : Nat :=
  byte_sampling_threshold / total_samples

/-- Line 123 of `file_utils.py`:
`sample_position = (file_size-sample_size) * (i // (total_samples-1))`.
Note the integer division happens on `i // (total_samples-1)` alone. -/
def sample_position (file_size byte_sampling_threshold total_samples i : Nat) : Nat :=
  (file_size - sample_size byte_sampling_threshold total_samples) * (i / (total_samples - 1))

/-- The seek offsets used for the `total_samples` samples, in loop order. -/
def sample_positions (file_size byte_sampling_threshold total_samples : Nat) : List Nat :=
  (List.range total_samples).map (sample_position file_size byte_sampling_threshold total_samples)

/-- Modelled from the spec: sample positions `i*(length-sample_size)/(S-1)`
for `i in [0,S)` (spec §4.3, claim C1).  Kept separate from the code's
`sample_position` for comparison. -/
def spec_sample_position (file_size byte_sampling_threshold total_samples i : Nat) : Nat :=
  i * (file_size - sample_size byte_sampling_threshold total_samples) / (total_samples - 1)

/-- Modelled from the spec: the list of spec sample positions. -/
def spec_sample_positions (file_size byte_sampling_threshold total_samples : Nat) : List Nat :=
  (List.range total_samples).map (spec_sample_position file_size byte_sampling_threshold total_samples)

/-- ASCII bytes of `f'{file_size}'.encode()` (line 104). -/
def decimalBytes (n : Nat) : List Nat := (Nat.repr n).toList.map Char.toNat

/-- The full ordered byte stream passed to the hash object by
`get_hash_for_file`: the decimal length string, then either the whole file
(small files) or the `total_samples` samples read at the code's seek
offsets. -/
def get_hash_stream (file : List Nat) (byte_sampling_threshold total_samples : Nat) : List Nat :=
  decimalBytes file.length ++
  (if file.length < byte_sampling_threshold then file
   else ((List.range total_samples).map (fun i =>
      (file.drop (sample_position file.length byte_sampling_threshold total_samples i)).take
        (sample_size byte_sampling_threshold total_samples))).flatten)

/-! ### `create_ulid_with_hash_randomness` (file_utils.py lines 135-176) -/

/-- Python `int.to_bytes(value, length, "big")`, as a list of byte values. -/
def to_bytes_be (value length : Nat) : List Nat :=
  (List.range length).map (fun i => value / 256 ^ (length - 1 - i) % 256)

/-- `ulid.constants.TIMESTAMP_LEN` -/
def TIMESTAMP_LEN : Nat := 6

/-- The 16 bytes of the modified ULID produced by
`create_ulid_with_hash_randomness` (the final `str(ULID.from_bytes(...))`
is a fixed injective base-32 rendering of these bytes, which we omit).
`mtime` is the float modification time; `timestamp = int(mtime*1000)`
big-endian in 6 bytes, of which the first 5 are kept. -/
def create_ulid_with_hash_randomness (mtime : ℚ) (file_hash : List Nat)
    (grouping_hash : Option (List Nat)) : List Nat :=
  let timestamp := to_bytes_be (ratTrunc (mtime * 1000)).toNat TIMESTAMP_LEN
  -- byte_array[:5] = timestamp[:5]
  let b5 : Nat := match grouping_hash with
    | some g => g.getD 0 0          -- byte_array[5] = grouping_hash[0]
    | none => 0
  let b6pre : Nat := match grouping_hash with
    | some g => g.getD 1 0 &&& 254  -- byte_array[6] = grouping_hash[1] & 0b1111_1110
    | none => 0
  -- byte_array[6] &= file_hash[0] & 0b0000_0001
  let b6 : Nat := b6pre &&& (file_hash.getD 0 0 &&& 1)
  -- byte_array[7:] = file_hash[1:10]
  timestamp.take 5 ++ [b5, b6] ++ (file_hash.drop 1).take 9

/-- The 40-bit timestamp segment: the first 5 bytes. -/
def timestampSegment (u : List Nat) : List Nat := u.take 5

/-- The 15-bit grouping segment: byte 5 and the upper 7 bits of byte 6. -/
def groupingSegment (u : List Nat) : Nat × Nat := (u.getD 5 0, u.getD 6 0 / 2)

/-- The 73-bit randomness segment: the low bit of byte 6 and bytes 7-15. -/
def randomnessSegment (u : List Nat) : Nat × List Nat := (u.getD 6 0 % 2, u.drop 7)

end FileUtils

namespace TiffMeta

/-! ### `annotated_image_serialization.py`

Datetimes are modeled at whole-second resolution (the EXIF format
`"%Y:%m:%d %H:%M:%S"` discards sub-second precision; `strftime`/`strptime`
on whole seconds is a bijection, so we keep wall-clock values as second
counts rather than formatted strings). -/

/-- An aware Python `datetime`: absolute time (UTC epoch seconds) together
with its attached timezone offset in seconds. -/
structure PyDatetime where
  utcEpochSec : Int
  tzOffsetSec : Int
deriving DecidableEq, Repr

/-- The wall-clock second count printed by `strftime("%Y:%m:%d %H:%M:%S")`. -/
def PyDatetime.wallClockSec (dt : PyDatetime) : Int := dt.utcEpochSec + dt.tzOffsetSec

/-- `date_time.astimezone(timezone.utc)`: same instant, offset zero. -/
def PyDatetime.astimezoneUtc (dt : PyDatetime) : PyDatetime :=
  { utcEpochSec := dt.utcEpochSec, tzOffsetSec := 0 }

/-- `GPSInfo` dataclass (lines 14-18). -/
structure GPSInfo where
  latitude : Option ℚ := none
  longitude : Option ℚ := none
  altitude : Option ℚ := none
deriving DecidableEq, Repr

/-- `TiffImageMetadata` dataclass (lines 21-32).  The JSON payload is kept
as the already-serialized JSON string (`json.dumps`/`json.loads` round the
same string through the UserComment field). -/
structure TiffImageMetadata where
  date_time : Option PyDatetime := none
  gps_info : Option GPSInfo := none
  jsonable_metadata : Option String := none
deriving DecidableEq, Repr

/-- The EXIF dictionary fields written/read by the codec.  Rationals are
`(numerator, denominator)` pairs of naturals; hemisphere references are the
stored characters. -/
structure ExifDict where
  userComment : Option String := none
  zerothDateTime : Option Int := none        -- '0th' ImageIFD.DateTime
  exifDateTimeOriginal : Option Int := none  -- 'Exif' ExifIFD.DateTimeOriginal
  gpsLatitude : Option ((Nat × Nat) × (Nat × Nat) × (Nat × Nat)) := none
  gpsLatitudeRef : Option Char := none
  gpsLongitude : Option ((Nat × Nat) × (Nat × Nat) × (Nat × Nat)) := none
  gpsLongitudeRef : Option Char := none
  gpsAltitudeRef : Option Nat := none
  gpsAltitude : Option (Nat × Nat) := none
deriving DecidableEq, Repr

/-- `numdem_to_float` (lines 35-36); rational division (a zero denominator
does not occur in encoder output). -/
def numdem_to_float (num_dem : Nat × Nat) : ℚ := (num_dem.1 : ℚ) / (num_dem.2 : ℚ)

/-- `decimal_degree_to_dms_num_dem` (lines 39-54).  `loc` is the two-letter
hemisphere string, e.g. `('N', 'S')`. -/
def decimal_degree_to_dms_num_dem (value : ℚ) (loc : Char × Char) :
    (((Nat × Nat) × (Nat × Nat) × (Nat × Nat)) × Char) :=
  let loc_value := if value < 0 then loc.2 else loc.1
  let abs_value := |value|
  let deg : Nat := (ratTrunc abs_value).toNat
  let minu : Nat := (ratTrunc ((abs_value - deg) * 60)).toNat
  let sec : ℚ := (abs_value - deg - (minu : ℚ) / 60) * 3600 * 100
  (((deg, 1), (minu, 1), ((ratTrunc sec).toNat, 100)), loc_value)

/-- `dms_num_dem_to_decimal_degree` (lines 57-68).  `loc = none` models the
decoder hitting a missing reference letter (`''.decode` fails); an
unrecognized letter models the `assert loc in ['N','E']` failure.  Either
raises, which the caller catches; hence the `Option` result. -/
def dms_num_dem_to_decimal_degree (dms : (Nat × Nat) × (Nat × Nat) × (Nat × Nat))
    (loc : Option Char) : Option ℚ :=
  match loc with
  | none => none
  | some c =>
    let value := numdem_to_float dms.1 + numdem_to_float dms.2.1 / 60 +
      numdem_to_float dms.2.2 / 3600
    if c = 'S' ∨ c = 'W' then some (-value)
    else if c = 'N' ∨ c = 'E' then some value
    else none

/-- `metadata_to_exif_dict` (lines 71-106). -/
def metadata_to_exif_dict (metadata : TiffImageMetadata) : ExifDict :=
  let base : ExifDict := { userComment := metadata.jsonable_metadata }
  let withDt : ExifDict := match metadata.date_time with
    | none => base
    | some dt =>
      { base with
        -- Store utc time in 0th and local time in Exif
        zerothDateTime := some dt.astimezoneUtc.wallClockSec
        exifDateTimeOriginal := some dt.wallClockSec }
  match metadata.gps_info with
  | none => withDt
  | some gps =>
    let withLatLong : ExifDict := match gps.latitude, gps.longitude with
      | some lat, some long =>
        let latPair := decimal_degree_to_dms_num_dem lat ('N', 'S')
        let longPair := decimal_degree_to_dms_num_dem long ('E', 'W')
        { withDt with
          gpsLatitude := some latPair.1
          gpsLatitudeRef := some latPair.2
          gpsLongitude := some longPair.1
          gpsLongitudeRef := some longPair.2 }
      | _, _ => withDt
    match gps.altitude with
    | none => withLatLong
    | some alt =>
      { withLatLong with
        gpsAltitudeRef := some (if 0 ≤ alt then 0 else 1)
        gpsAltitude := some ((ratTrunc (alt * 100)).natAbs, 100) }

/-- Whether the GPS sub-dictionary is nonempty (`if gps_entry:`). -/
def gpsNonempty (e : ExifDict) : Bool :=
  e.gpsLatitude.isSome || e.gpsLatitudeRef.isSome || e.gpsLongitude.isSome ||
    e.gpsLongitudeRef.isSome || e.gpsAltitudeRef.isSome || e.gpsAltitude.isSome

/-- `load_tiff_metadata` (lines 138-187).  Note that on lines 154-155 BOTH
`datetime_local` and `datetime_utc` are parsed from the same
`'0th'/ImageIFD.DateTime` entry; the `'Exif'/DateTimeOriginal` copy is
never read. -/
def load_tiff_metadata (e : ExifDict) : TiffImageMetadata :=
  let json_metadata := e.userComment
  let datetime_localized : Option PyDatetime := match e.zerothDateTime with
    | some dt_entry =>
      let datetime_local := dt_entry
      let datetime_utc := dt_entry
      let tz_offset := datetime_local - datetime_utc
      -- datetime_local.replace(tzinfo=timezone(tz_offset))
      some { utcEpochSec := datetime_local - tz_offset, tzOffsetSec := tz_offset }
    | none => none
  let gps_info : Option GPSInfo :=
    if gpsNonempty e then
      -- the whole GPSInfo construction sits in a try/except: any failure
      -- in parsing latitude or longitude yields gps_info = None
      match dms_num_dem_to_decimal_degree (e.gpsLatitude.getD ((0,1),(0,1),(0,1)))
              e.gpsLatitudeRef,
            dms_num_dem_to_decimal_degree (e.gpsLongitude.getD ((0,1),(0,1),(0,1)))
              e.gpsLongitudeRef with
      | some lat, some long =>
        some { latitude := some lat, longitude := some long,
               altitude := some (numdem_to_float (e.gpsAltitude.getD (0, 1))) }
      | _, _ => none
    else none
  { date_time := datetime_localized, gps_info := gps_info,
    jsonable_metadata := json_metadata }

end TiffMeta

namespace AnnotationDb

/-! ### `basic_utils.py` and the `os.path` helpers it relies on -/

/-- `os.path.basename` for `/`-separated paths: the part after the last
separator. -/
def basename (p : Str) : Str := (p.reverse.takeWhile (· ≠ '/')).reverse

/-- The extension part of `os.path.splitext` applied to a basename: from
the last dot onward, unless every character before that dot is itself a
dot (leading-dot files have no extension). -/
def extOfBasename (b : Str) : Str :=
  let suffixLen := (b.reverse.takeWhile (· ≠ '.')).length
  if suffixLen = b.length then []
  else
    let dotPos := b.length - suffixLen - 1
    if (b.take dotPos).all (· = '.') then [] else b.drop dotPos

/-- The extension part of `os.path.splitext(path)`. -/
def splitext_ext (p : Str) : Str := extOfBasename (basename p)

/-- `str.lower()` (ASCII suffices for the extension lists). -/
def lowerStr (s : Str) : Str := s.map Char.toLower

/-- `IMAGE_FILE_EXTENSIONS` from `basic_utils.py`. -/
def IMAGE_FILE_EXTENSIONS : List Str :=
  [".jpg".toList, ".jpeg".toList, ".png".toList, ".tiff".toList]

/-- `is_hidden` (basic_utils.py lines 8-10). -/
def is_hidden (path : Str) : Bool :=
  match basename path with
  | c :: _ => c = '.'
  | [] => false

/-- `is_image_path` (basic_utils.py lines 13-14), with `allow_hidden`
defaulting to false. -/
def is_image_path (path : Str) : Bool :=
  IMAGE_FILE_EXTENSIONS.contains (lowerStr (splitext_ext path)) && !is_hidden path

/-! ### Data model (`annotation_database.py` lines 41-106) -/

/-- `RecordQuery` dataclass (goto_queries.py lines 14-20). -/
structure RecordQuery where
  case : Option Str := none
  record_id : Option Str := none
  nickname : Option Str := none
  detector_name : Option Str := none
  file : Option Str := none
deriving DecidableEq, Repr

/-- `Annotation` dataclass (lines 41-48). -/
structure Annotation where
  ijhw_box : Int × Int × Int × Int
  label : Str := []
  value : Int := 1
  description : Str := []
  tags : List Str := []
deriving DecidableEq, Repr

/-- External `FrameGeoData` (artemis), modeled by the fields this
repository reads: `lat_long`, `altitude_from_sea` and the timestamp
behind `get_datetime`. -/
structure FrameGeoData where
  lat_long : ℚ × ℚ
  altitude_from_sea : Option ℚ := none
  epochSec : Int := 0
  tzOffsetSec : Int := 0
deriving DecidableEq, Repr

/-- `FrameSourceInfo` dataclass (lines 59-73); note `annotations` defaults
to `None`. -/
structure FrameSourceInfo where
  source_file : Str
  source_index : Int := 0
  source_time : Option ℚ := none
  source : Str := []
  source_file_id : Option Str := none
  description : Str := []
  annotations : Option (List Annotation) := none
  geodata : Option FrameGeoData := none
  record_query : Option RecordQuery := none
deriving DecidableEq, Repr

/-- Python `str(i)` for an integer. -/
def intToStr (i : Int) : Str := (toString i).toList

/-- `get_source_identifier` (line 108-109): `f'{source_file}:{source_index}'`. -/
def FrameSourceInfo.get_source_identifier (fsi : FrameSourceInfo) : Str :=
  fsi.source_file ++ [':'] ++ intToStr fsi.source_index

/-- `FrameSourceInfoAndImage` (lines 125-129): the record plus the pixel
array (opaque blob id). -/
structure FrameSourceInfoAndImage where
  frame_source_info : FrameSourceInfo
  image : Nat
deriving DecidableEq, Repr

/-! ### Store state

The accessor's mutable world: the TinyDB table (`db_cache.json`), the
`images/` folder (filename ↦ the record embedded in that container file),
the bounded query cache and the dirty flag.  External hash functions
(`compute_fixed_hash`, sha256) are abstracted as function parameters. -/

/-- One TinyDB document: `dict(filename=..., data=serialize(fsi))`.  The
`data` field holds the record (its serialized primitive form is modeled in
the `DataClassWithNumpyPreSerializer` section, whose round-trip theorem
justifies storing the record itself here). -/
structure DbDoc where
  filename : Str
  data : FrameSourceInfo
deriving DecidableEq, Repr

/-- The store state of `AnnotationDatabaseAccessor`. -/
structure AccessorState where
  db : List (Int × DbDoc)
  imageFolder : List (Str × FrameSourceInfo)
  queryCache : List (Str × List FrameSourceInfo)
  cacheDirty : Bool
deriving DecidableEq, Repr

/-- `AnnotationDatabaseAccessor.__init__` (lines 250-265): loads the index
file, starts with an empty query cache and `_cache_dirty = True`. -/
def AccessorState.init (db : List (Int × DbDoc)) (imageFolder : List (Str × FrameSourceInfo)) :
    AccessorState :=
  { db := db, imageFolder := imageFolder, queryCache := [], cacheDirty := true }

/-- Assoc-list lookup by string key (first match), for folders and caches. -/
def lookupStr {α : Type} (l : List (Str × α)) (k : Str) : Option α :=
  match l with
  | [] => none
  | (k', v) :: rest => if k' = k then some v else lookupStr rest k

/-- TinyDB `db.get(doc_id=k)`. -/
def dbGet (db : List (Int × DbDoc)) (k : Int) : Option DbDoc :=
  match db with
  | [] => none
  | (k', d) :: rest => if k' = k then some d else dbGet rest k

/-- TinyDB `upsert(Document(..., doc_id=k))`: replace the existing document
with this id, else append. -/
def upsertDoc (db : List (Int × DbDoc)) (k : Int) (doc : DbDoc) : List (Int × DbDoc) :=
  match db with
  | [] => [(k, doc)]
  | (k', d) :: rest => if k' = k then (k, doc) :: rest else (k', d) :: upsertDoc rest k doc

/-- TinyDB `db.remove(doc_ids=[k])`: pops the document, raising `KeyError`
(modeled as `Except.error`) when no document has this id — in which case
nothing is removed. -/
def dbRemove (db : List (Int × DbDoc)) (k : Int) : Except Unit (List (Int × DbDoc)) :=
  if (dbGet db k).isSome then
    .ok (db.filter (fun kv => !(kv.1 == k)))
  else .error ()

/-- Overwrite-or-append for the image folder (writing a container file). -/
def folderPut (folder : List (Str × FrameSourceInfo)) (name : Str) (fsi : FrameSourceInfo) :
    List (Str × FrameSourceInfo) :=
  match folder with
  | [] => [(name, fsi)]
  | (n, v) :: rest => if n = name then (name, fsi) :: rest else (n, v) :: folderPut rest name fsi

/-- `os.remove` of a folder entry. -/
def folderRemove (folder : List (Str × FrameSourceInfo)) (name : Str) :
    List (Str × FrameSourceInfo) :=
  folder.filter (fun nv => !(nv.1 == name))

/-- External `CacheDict(buffer_length=3)`: modeled from the spec as a
bounded buffer of capacity 3 that drops the oldest entry when full. -/
def cachePut (cache : List (Str × List FrameSourceInfo)) (k : Str) (v : List FrameSourceInfo) :
    List (Str × List FrameSourceInfo) :=
  let c := cache ++ [(k, v)]
  if 3 < c.length then c.drop (c.length - 3) else c

end AnnotationDb

namespace AnnotationDb

/-! ### Store operations (`annotation_database.py` lines 292-496)

Each operation takes the external hash function
`hashId : Str → Int` standing for
`get_fixed_hash_from_frame_source_info = compute_fixed_hash(·, INT)` and
returns its result together with the successor state. -/

/-- `update_cache` (lines 334-347): reconcile the TinyDB table against the
image folder, then clear the dirty flag. -/
def update_cache (hashId : Str → Int) (s : AccessorState) (full_clean : Bool) : AccessorState :=
  let s0 := if full_clean then { s with queryCache := [] } else s
  let filenames := (s0.imageFolder.map Prod.fst).filter (fun f => is_image_path f)
  let filenames_in_db := s0.db.map (fun kv => kv.2.filename)
  -- self.db.remove(cond=Query().filename.one_of(filenames_in_db - filenames))
  let db1 := s0.db.filter (fun kv =>
    !(filenames_in_db.contains kv.2.filename && !(filenames.contains kv.2.filename)))
  -- for filename in filenames - filenames_in_db: load the file, insert
  let toAdd := filenames.filter (fun f => !(filenames_in_db.contains f))
  let db2 := toAdd.foldl (fun db f =>
    match lookupStr s0.imageFolder f with
    | some fsi => upsertDoc db (hashId fsi.get_source_identifier) ⟨f, fsi⟩
    | none => db) db1
  { s0 with db := db2, cacheDirty := false }

/-- `lookup_frame_source_info_from_identifier` (lines 349-357). -/
def lookup_frame_source_info_from_identifier (hashId : Str → Int) (s : AccessorState)
    (source_identifier : Str) : Option FrameSourceInfo × AccessorState :=
  let s := if s.cacheDirty then update_cache hashId s false else s
  let hash_code := hashId source_identifier
  match dbGet s.db hash_code with
  | none => (none, s)
  | some full_json => (some full_json.data, s)

/-- Error values for Python exceptions raised by the store. -/
inductive PyErr where
  | typeErrorLenOfNone     -- len(None) in save_annotated_image's print
  | keyError               -- tinydb remove of a nonexistent doc id
  | fileNotFound           -- open/os.remove on a missing file
  | typeErrorNoneSubscript -- None['filename']
deriving DecidableEq, Repr

/-- `load_frame_source_info_and_image` (lines 359-368): db lookup for the
filename, then the record is re-read from the container file itself. -/
def load_frame_source_info_and_image (hashId : Str → Int) (s : AccessorState)
    (frame_source_info_id : Str) :
    Except PyErr (Option FrameSourceInfoAndImage) × AccessorState :=
  let s := if s.cacheDirty then update_cache hashId s false else s
  let database_key := hashId frame_source_info_id
  match dbGet s.db database_key with
  | none => (.ok none, s)
  | some full_json =>
    match lookupStr s.imageFolder full_json.filename with
    | some fsi => (.ok (some ⟨fsi, 0⟩), s)
    | none => (.error .fileNotFound, s)  -- load_from_image_file on a missing path raises

/-- `query_annotation_data` (lines 388-408): full scan / `db.search`; does
not consult the dirty flag and leaves the state untouched. -/
def query_annotation_data (s : AccessorState) (query : Option (DbDoc → Bool)) :
    List FrameSourceInfo × AccessorState :=
  match query with
  | none => (s.db.map (fun kv => kv.2.data), s)
  | some q => ((s.db.filter (fun kv => q kv.2)).map (fun kv => kv.2.data), s)

/-- Python `str.strip()` (whitespace at both ends). -/
def stripStr (s : Str) : Str :=
  ((s.dropWhile (·.isWhitespace)).reverse.dropWhile (·.isWhitespace)).reverse

/-- tinydb `field.search(text)`: regex search, here used with plain text,
i.e. substring containment; `None`/missing fields never match. -/
def strSearch (field : Option Str) (text : Str) : Bool :=
  match field with
  | none => false
  | some f => decide (List.IsInfix text f)

/-- The predicate built by `query_text_in_any_field` (lines 410-423):
nickname, source file, annotation labels, annotation descriptions, or
annotation tags (`tags.any(text)` with a plain-string argument tests each
tag against the characters of `text`). -/
def textQueryPred (text : Str) (doc : DbDoc) : Bool :=
  strSearch (doc.data.record_query.bind (fun rq => rq.nickname)) text ||
  strSearch (some doc.data.source_file) text ||
  (doc.data.annotations.getD []).any (fun ann => strSearch (some ann.label) text) ||
  (doc.data.annotations.getD []).any (fun ann => strSearch (some ann.description) text) ||
  (doc.data.annotations.getD []).any (fun ann =>
    ann.tags.any (fun tag => text.any (fun c => tag = [c])))

/-- `query_text_in_any_field` (lines 410-423). -/
def query_text_in_any_field (s : AccessorState) (text : Str) :
    List FrameSourceInfo × AccessorState :=
  let t := stripStr text
  if t = [] then query_annotation_data s none
  else query_annotation_data s (some (textQueryPred t))

/-- Python `path.split(';')`. -/
def splitOnSemi : Str → List Str
  | [] => [[]]
  | c :: rest =>
    if c = ';' then [] :: splitOnSemi rest
    else
      match splitOnSemi rest with
      | [] => [[c]]
      | s :: ss => (c :: s) :: ss

/-- The dict comprehension `{p: i for i, p in enumerate(paths)}` looked up
at `p`: later duplicates overwrite earlier ones. -/
def path_to_index_from (i : Nat) : List Str → Str → Option Nat
  | [], _ => none
  | q :: qs, p =>
    match path_to_index_from (i + 1) qs p with
    | some j => some j
    | none => if q = p then some i else none

/-- `path_to_index[fsi.source_file]` for `paths = path.split(';')`. -/
def path_to_index (paths : List Str) (p : Str) : Option Nat :=
  path_to_index_from 0 paths p

/-- `query_annotation_data_from_path` (lines 429-454): query cache check,
shortlist by membership of `source_file` among the sub-paths, and for a
multi-path input the rewrite of `source_file`/`source_index`; the result
is stored into the bounded query cache. -/
def query_annotation_data_from_path (s : AccessorState) (path : Str) :
    List FrameSourceInfo × AccessorState :=
  match lookupStr s.queryCache path with
  | some cached => (cached, s)
  | none =>
    let paths := splitOnSemi path
    let shortlist := (s.db.filter (fun kv => decide (kv.2.data.source_file ∈ paths))).map
      (fun kv => kv.2.data)
    let result :=
      if paths.length = 1 then shortlist
      else shortlist.map (fun fsi =>
        { fsi with source_file := path,
                   source_index := ((path_to_index paths fsi.source_file).getD 0 : Int) })
    (result, { s with queryCache := cachePut s.queryCache path result })

/-! ### The save path and its filesystem effects -/

/-- Filesystem write effects performed while saving a container file. -/
inductive FsEffect where
  | writeTmp (path : Str)        -- write to a temporary file
  | renameInto (src dst : Str)   -- atomic rename into place
  | writeFinal (path : Str)      -- direct write at the final path
deriving DecidableEq, Repr

/-- `save_tiff_with_metadata` (annotated_image_serialization.py lines
122-135): `image.save(path, "TIFF", exif=exif_bytes)` writes directly at
`path`. -/
def save_tiff_with_metadata (path : Str) : List FsEffect := [.writeFinal path]

/-- `copy_image_and_patch_on_metadata` (annotated_image_serialization.py
lines 109-119): `piexif.insert(exif_bytes, source_path, dest_path)` writes
directly at `dest_path`. -/
def copy_image_and_patch_on_metadata (dest_path : Str) : List FsEffect :=
  [.writeFinal dest_path]

/-- `FrameSourceInfoAndImage.save_to_image_file` (lines 143-196).
`nameHash` abstracts the content-hash-derived filename stem
`f'{source_reference_hash[:8]}{remainder_hash[:8]}_{source_file_name}'`
(external sha256 / `compute_fixed_hash`); `fileExists` abstracts
`os.path.exists` on source files.  Returns the written path and the write
effects. -/
def save_to_image_file (nameHash : FrameSourceInfo → Str) (fileExists : Str → Bool)
    (parent_dir : Str) (fsii : FrameSourceInfoAndImage) : Str × List FsEffect :=
  let fsi := fsii.frame_source_info
  let filename := nameHash fsi
  let extensionless_path := parent_dir ++ ['/'] ++ filename
  let extensionless_path :=
    if !is_image_path fsi.source_file then
      extensionless_path ++ ['_'] ++ intToStr fsi.source_index
    else extensionless_path
  let we_can_just_copy_the_file := is_image_path fsi.source_file && fileExists fsi.source_file
  if we_can_just_copy_the_file then
    let image_path := extensionless_path ++ ".ann".toList ++ lowerStr (splitext_ext fsi.source_file)
    (image_path, copy_image_and_patch_on_metadata image_path)
  else
    let image_path := extensionless_path ++ ".ann.tiff".toList
    (image_path, save_tiff_with_metadata image_path)

/-- The fixed `images/` sub-folder path of the store root. -/
def imageFolderPath : Str := "images".toList

/-- `save_annotated_image` (lines 298-326): write the container file,
upsert `{filename, data}` into the index under the stable hash of the
source identifier, then `print(... len(annotations) ...)` — which raises
`TypeError` when `annotations` is `None` — and only then clear the query
cache.  Returns the result (or the raised error), the successor state and
the write effects. -/
def save_annotated_image (hashId : Str → Int) (nameHash : FrameSourceInfo → Str)
    (fileExists : Str → Bool) (s : AccessorState) (fsii : FrameSourceInfoAndImage) :
    Except PyErr Str × AccessorState × List FsEffect :=
  let fsi := fsii.frame_source_info
  let r := save_to_image_file nameHash fileExists imageFolderPath fsii
  let image_path := r.1
  let filename_key := basename image_path
  -- the container file now exists in the image folder
  let s1 := { s with imageFolder := folderPut s.imageFolder filename_key fsi }
  -- _insert_filename_and_fsi_into_database (lines 292-296)
  let database_key := hashId fsi.get_source_identifier
  let s2 := { s1 with db := upsertDoc s1.db database_key ⟨filename_key, fsi⟩ }
  match fsi.annotations with
  | none => (.error .typeErrorLenOfNone, s2, r.2)
  | some _ => (.ok image_path, { s2 with queryCache := [] }, r.2)

/-- `delete_annotation_data` (lines 456-496): `db.get` (possibly `None`),
then `db.remove(doc_ids=[hash_code])` — raising `KeyError` before anything
is mutated when the id is absent — then `os.remove` of the backing file,
then cache clear. -/
def delete_annotation_data (hashId : Str → Int) (s : AccessorState)
    (source_identifier : Str) : Except PyErr Unit × AccessorState :=
  let hash_code := hashId source_identifier
  let full_json := dbGet s.db hash_code
  match dbRemove s.db hash_code with
  | .error _ => (.error .keyError, s)
  | .ok db2 =>
    match full_json with
    | none => (.error .typeErrorNoneSubscript, { s with db := db2 })
    | some doc =>
      if (lookupStr s.imageFolder doc.filename).isSome then
        (.ok (), { s with db := db2,
                          imageFolder := folderRemove s.imageFolder doc.filename,
                          queryCache := [] })
      else (.error .fileNotFound, { s with db := db2 })

end AnnotationDb

namespace Serial

/-! ### `serialization.py`: `DataClassWithNumpyPreSerializer`

The universe of supported Python values: `None`, bool, int, float
(modeled as `ℚ`), str, list, tuple, string-keyed dict, `Enum` members,
numpy arrays (opaque blobs, passed through unexamined), and dataclass
instances (`vrecord`: class name plus ordered `__dict__` fields). -/

mutual
inductive PValue where
  | vnone : PValue
  | vbool : Bool → PValue
  | vint : Int → PValue
  | vfloat : ℚ → PValue
  | vstr : String → PValue
  | vlist : PVList → PValue
  | vtuple : PVList → PValue
  | vdict : PVEntries → PValue
  | venum : String → Int → PValue
  | vblob : Nat → PValue
  | vrecord : String → PVEntries → PValue
deriving DecidableEq, Repr

inductive PVList where
  | nil : PVList
  | cons : PValue → PVList → PVList
deriving DecidableEq, Repr

inductive PVEntries where
  | nil : PVEntries
  | cons : String → PValue → PVEntries → PVEntries
deriving DecidableEq, Repr
end

/-- Target shapes (the `cls` argument of `deserialize`): the typing
information that drives deserialization.  An enumeration shape carries its
members (name, underlying value); a record shape carries its declared
fields in order. -/
inductive PShape where
  | sNone : PShape
  | sBool : PShape
  | sInt : PShape
  | sFloat : PShape
  | sStr : PShape
  | sList : PShape → PShape
  | sTuple : List PShape → PShape
  | sDict : PShape → PShape
  | sEnum : List (String × Int) → PShape
  | sBlob : PShape
  | sRecord : String → List (String × PShape) → PShape

mutual
/-- `DataClassWithNumpyPreSerializer.serialize` (serialization.py lines
47-63): scalars pass through, lists and tuples map to lists of serialized
elements, dicts serialize keys (strings: no-op) and values, enums map to
their underlying value, numpy arrays pass through, and dataclass
instances map to the dict of their serialized fields. -/
def serialize : PValue → PValue
  | .vnone => .vnone
  | .vbool b => .vbool b
  | .vint n => .vint n
  | .vfloat q => .vfloat q
  | .vstr s => .vstr s
  | .vlist xs => .vlist (serializeList xs)
  | .vtuple xs => .vlist (serializeList xs)
  | .vdict es => .vdict (serializeEntries es)
  | .venum _ v => .vint v
  | .vblob b => .vblob b
  | .vrecord _ fs => .vdict (serializeEntries fs)

def serializeList : PVList → PVList
  | .nil => .nil
  | .cons x xs => .cons (serialize x) (serializeList xs)

def serializeEntries : PVEntries → PVEntries
  | .nil => .nil
  | .cons k v es => .cons k (serialize v) (serializeEntries es)
end

/-- `Enum.__call__(value)`: the (first, canonical) member with the given
underlying value. -/
def findMember (members : List (String × Int)) (n : Int) : Option (String × Int) :=
  members.find? (fun m => m.2 == n)

/-- Python dict lookup `data[key]` (first entry; Python dicts have unique
keys). -/
def dictLookup (k : String) : PVEntries → Option PValue
  | .nil => none
  | .cons k' v es => if k' == k then some v else dictLookup k es

/-- Whether a record shape's declared field names are distinct (always
true for Python dataclasses). -/
def fieldNamesNodup (fields : List (String × PShape)) : Bool :=
  decide (fields.map Prod.fst).Nodup

mutual
/-- Typing: `v` is a value of shape `sh`.  For an enum member the shape's
value lookup must return exactly this member (Python aliases canonicalize
to the first member with a given value); for a record the fields must
match the declared fields in order, and the declared names are distinct. -/
def hasShape : PValue → PShape → Bool
  | .vnone, .sNone => true
  | .vbool _, .sBool => true
  | .vint _, .sInt => true
  | .vfloat _, .sFloat => true
  | .vstr _, .sStr => true
  | .vlist xs, .sList el => listHasShape xs el
  | .vtuple xs, .sTuple els => tupleHasShape xs els
  | .vdict es, .sDict vs => entriesHaveShape es vs
  | .venum nm v, .sEnum members => findMember members v == some (nm, v)
  | .vblob _, .sBlob => true
  | .vrecord cls fs, .sRecord cls' fields =>
    cls == cls' && fieldsHaveShape fs fields && fieldNamesNodup fields
  | _, _ => false

def listHasShape : PVList → PShape → Bool
  | .nil, _ => true
  | .cons x xs, el => hasShape x el && listHasShape xs el

def tupleHasShape : PVList → List PShape → Bool
  | .nil, [] => true
  | .cons x xs, el :: els => hasShape x el && tupleHasShape xs els
  | .nil, _ :: _ => false
  | .cons _ _, [] => false

def entriesHaveShape : PVEntries → PShape → Bool
  | .nil, _ => true
  | .cons _ v es, vs => hasShape v vs && entriesHaveShape es vs

def fieldsHaveShape : PVEntries → List (String × PShape) → Bool
  | .nil, [] => true
  | .cons k v es, (fn, fsh) :: fields => k == fn && hasShape v fsh && fieldsHaveShape es fields
  | .nil, _ :: _ => false
  | .cons _ _ _, [] => false
end

mutual
/-- `DataClassWithNumpyPreSerializer.deserialize(cls, obj)` (serialization.py
lines 64-75 plus `dict_to_dataclass` for dataclasses): dispatch on the
target shape; mismatching primitive forms raise a deserialization error. -/
def deserialize : PShape → PValue → Except String PValue
  | .sNone, .vnone => .ok .vnone
  | .sBool, .vbool b => .ok (.vbool b)
  | .sInt, .vint n => .ok (.vint n)
  | .sFloat, .vfloat q => .ok (.vfloat q)
  | .sStr, .vstr s => .ok (.vstr s)
  | .sList el, .vlist xs =>
    match deserializeList el xs with
    | .ok ys => .ok (.vlist ys)
    | .error e => .error e
  | .sTuple els, .vlist xs =>
    match deserializeTuple els xs with
    | .ok ys => .ok (.vtuple ys)
    | .error e => .error e
  | .sDict vs, .vdict es =>
    match deserializeEntries vs es with
    | .ok fs => .ok (.vdict fs)
    | .error e => .error e
  | .sEnum members, .vint n =>
    match findMember members n with
    | some m => .ok (.venum m.1 m.2)
    | none => .error "ValueError: not a valid enum value"
  | .sBlob, .vblob b => .ok (.vblob b)
  | .sRecord cls fields, .vdict es =>
    match deserializeFields fields es with
    | .ok fs => .ok (.vrecord cls fs)
    | .error e => .error e
  | _, _ => .error "DeserializationError"
termination_by sh _ => (sizeOf sh, 0)

def deserializeList (el : PShape) : PVList → Except String PVList
  | .nil => .ok .nil
  | .cons x xs =>
    match deserialize el x, deserializeList el xs with
    | .ok y, .ok ys => .ok (.cons y ys)
    | .error e, _ => .error e
    | _, .error e => .error e
termination_by xs => (sizeOf el, 1 + sizeOf xs)

def deserializeTuple : List PShape → PVList → Except String PVList
  | [], .nil => .ok .nil
  | el :: els, .cons x xs =>
    match deserialize el x, deserializeTuple els xs with
    | .ok y, .ok ys => .ok (.cons y ys)
    | .error e, _ => .error e
    | _, .error e => .error e
  | [], .cons _ _ => .error "ZipError"
  | _ :: _, .nil => .error "ZipError"
termination_by els xs => (sizeOf els, 1 + sizeOf xs)

def deserializeEntries (vs : PShape) : PVEntries → Except String PVEntries
  | .nil => .ok .nil
  | .cons k v es =>
    match deserialize vs v, deserializeEntries vs es with
    | .ok w, .ok ws => .ok (.cons k w ws)
    | .error e, _ => .error e
    | _, .error e => .error e
termination_by es => (sizeOf vs, 1 + sizeOf es)

/-- `dict_to_dataclass`: for each declared field, look its name up in the
primitive mapping and deserialize at the field's shape. -/
def deserializeFields : List (String × PShape) → PVEntries → Except String PVEntries
  | [], _ => .ok .nil
  | (fn, fsh) :: fields, es =>
    match dictLookup fn es with
    | none => .error "KeyError"
    | some v =>
      match deserialize fsh v, deserializeFields fields es with
      | .ok w, .ok ws => .ok (.cons fn w ws)
      | .error e, _ => .error e
      | _, .error e => .error e
termination_by fields es => (sizeOf fields, 1 + sizeOf es)
end

end Serial

/-! ## Theorems -/

namespace FileUtils

lemma to_bytes_be_length (value length : Nat) : (to_bytes_be value length).length = length := by
  simp [to_bytes_be]

lemma and254_and_and1 (a b : Nat) : (a &&& 254) &&& (b &&& 1) = 0 := by
  apply Nat.eq_of_testBit_eq
  intro i
  simp only [Nat.testBit_and, Nat.zero_testBit]
  cases i with
  | zero =>
    have h254 : Nat.testBit 254 0 = false := by decide
    simp [h254]
  | succ j =>
    have h1 : Nat.testBit 1 (j + 1) = false := by
      simp [Nat.testBit_succ]
    simp [h1]

lemma timestampSegment_shape (t : List Nat) (x y : Nat) (r : List Nat) (ht : t.length = 5) :
    timestampSegment (t ++ [x, y] ++ r) = t := by
  match t, ht with
  | [a, b, c, d, e], _ => rfl

lemma groupingSegment_shape (t : List Nat) (x y : Nat) (r : List Nat) (ht : t.length = 5) :
    groupingSegment (t ++ [x, y] ++ r) = (x, y / 2) := by
  match t, ht with
  | [a, b, c, d, e], _ => rfl

lemma randomnessSegment_shape (t : List Nat) (x y : Nat) (r : List Nat) (ht : t.length = 5) :
    randomnessSegment (t ++ [x, y] ++ r) = (y % 2, r) := by
  match t, ht with
  | [a, b, c, d, e], _ => rfl

lemma take5_timestamp_length (v : Nat) : ((to_bytes_be v TIMESTAMP_LEN).take 5).length = 5 := by
  simp [to_bytes_be_length, TIMESTAMP_LEN]

/-- The byte-array layout of `create_ulid_with_hash_randomness`. -/
lemma ulid_shape (m : ℚ) (fh : List Nat) (g : Option (List Nat)) :
    create_ulid_with_hash_randomness m fh g =
      (to_bytes_be (ratTrunc (m * 1000)).toNat TIMESTAMP_LEN).take 5 ++
        [(match g with | some gg => gg.getD 0 0 | none => 0),
         (match g with | some gg => gg.getD 1 0 &&& 254 | none => 0) &&&
           (fh.getD 0 0 &&& 1)] ++
        (fh.drop 1).take 9 := rfl

/-- Byte 6 of the ULID is always 0: the `&=` on line 172 masks the 7
grouping bits crafted on line 169 against a value that is at most 1. -/
lemma byte6_eq_zero (fh : List Nat) (g : Option (List Nat)) :
    (match g with | some gg => gg.getD 1 0 &&& 254 | none => 0) &&& (fh.getD 0 0 &&& 1) = 0 := by
  cases g with
  | some gg => exact and254_and_and1 _ _
  | none => simp

end FileUtils

/-- Claim C1 (code_bug evidence): for a 200000-byte file with the default
threshold 100000 and 3 samples, `get_hash_for_file`'s seek offsets are
`[0, 0, 166667]` — the first two samples both read offset 0 — whereas the
spec's formula `i*(length-sample_size)/(S-1)` gives the pairwise-distinct,
evenly spaced offsets `[0, 83333, 166667]`.  The culprit is
`(file_size-sample_size) * (i // (total_samples-1))` on line 123, whose
inner integer division collapses `i in [0, S-1)` to 0. -/
theorem get_hash_for_file_duplicate_sample_offset :
    FileUtils.sample_positions 200000 100000 3 = [0, 0, 166667] ∧
    FileUtils.spec_sample_positions 200000 100000 3 = [0, 83333, 166667] ∧
    FileUtils.sample_position 200000 100000 3 0 = FileUtils.sample_position 200000 100000 3 1 := by
  refine ⟨by decide, by decide, by decide⟩

namespace FileUtils

/-- Claim C2: two ULIDs built from the same modification time and grouping
hash but different content hashes agree on the 40-bit timestamp segment
and the 15-bit grouping segment (so they differ at most in the randomness
segment); two ULIDs built from the same content hash and grouping hash but
different modification times agree on the grouping and randomness segments
(so they differ at most in the timestamp segment). -/
theorem create_ulid_segment_locality
    (mt m1 m2 : ℚ) (fh1 fh2 fh : List Nat) (g : Option (List Nat))
    (hfh1 : 10 ≤ fh1.length) (hfh2 : 10 ≤ fh2.length) (hfh : 10 ≤ fh.length)
    (hne : fh1 ≠ fh2) (hm : m1 ≠ m2)
    (hmt0 : 0 ≤ mt) (hmtB : ratTrunc (mt * 1000) < 2 ^ 48)
    (hm10 : 0 ≤ m1) (hm1B : ratTrunc (m1 * 1000) < 2 ^ 48)
    (hm20 : 0 ≤ m2) (hm2B : ratTrunc (m2 * 1000) < 2 ^ 48) :
    (timestampSegment (create_ulid_with_hash_randomness mt fh1 g) =
       timestampSegment (create_ulid_with_hash_randomness mt fh2 g) ∧
     groupingSegment (create_ulid_with_hash_randomness mt fh1 g) =
       groupingSegment (create_ulid_with_hash_randomness mt fh2 g)) ∧
    (groupingSegment (create_ulid_with_hash_randomness m1 fh g) =
       groupingSegment (create_ulid_with_hash_randomness m2 fh g) ∧
     randomnessSegment (create_ulid_with_hash_randomness m1 fh g) =
       randomnessSegment (create_ulid_with_hash_randomness m2 fh g)) := by
  refine ⟨⟨?_, ?_⟩, ?_, ?_⟩
  · rw [ulid_shape, ulid_shape,
      timestampSegment_shape _ _ _ _ (take5_timestamp_length _),
      timestampSegment_shape _ _ _ _ (take5_timestamp_length _)]
  · rw [ulid_shape, ulid_shape,
      groupingSegment_shape _ _ _ _ (take5_timestamp_length _),
      groupingSegment_shape _ _ _ _ (take5_timestamp_length _),
      byte6_eq_zero fh1 g, byte6_eq_zero fh2 g]
  · rw [ulid_shape, ulid_shape,
      groupingSegment_shape _ _ _ _ (take5_timestamp_length _),
      groupingSegment_shape _ _ _ _ (take5_timestamp_length _)]
  · rw [ulid_shape, ulid_shape,
      randomnessSegment_shape _ _ _ _ (take5_timestamp_length _),
      randomnessSegment_shape _ _ _ _ (take5_timestamp_length _)]

/-- Witness for `create_ulid_segment_locality` at concrete inputs. -/
theorem create_ulid_segment_locality_witness :
    (timestampSegment (create_ulid_with_hash_randomness 0 (List.replicate 10 0) none) =
       timestampSegment (create_ulid_with_hash_randomness 0 (1 :: List.replicate 9 0) none) ∧
     groupingSegment (create_ulid_with_hash_randomness 0 (List.replicate 10 0) none) =
       groupingSegment (create_ulid_with_hash_randomness 0 (1 :: List.replicate 9 0) none)) ∧
    (groupingSegment (create_ulid_with_hash_randomness 0 (List.replicate 10 2) none) =
       groupingSegment (create_ulid_with_hash_randomness 1 (List.replicate 10 2) none) ∧
     randomnessSegment (create_ulid_with_hash_randomness 0 (List.replicate 10 2) none) =
       randomnessSegment (create_ulid_with_hash_randomness 1 (List.replicate 10 2) none)) :=
  create_ulid_segment_locality 0 0 1 (List.replicate 10 0) (1 :: List.replicate 9 0)
    (List.replicate 10 2) none
    (by decide) (by decide) (by decide) (by decide) (by norm_num)
    (by norm_num) (by norm_num [ratTrunc])
    (by norm_num) (by norm_num [ratTrunc])
    (by norm_num) (by norm_num [ratTrunc])

end FileUtils

namespace TiffMeta

/-- Claim C3 (code_bug evidence): encoding a datetime carrying a +1 h
offset (3600 s) and decoding it back yields a datetime whose attached
offset is 0, not the original offset: `load_tiff_metadata` parses BOTH
`datetime_local` and `datetime_utc` from the same `'0th'` DateTime tag
(the UTC copy) on lines 154-155 — the local copy stored in
`Exif/DateTimeOriginal` is never read — so the reconstructed offset is
always the zero timedelta. -/
theorem timezone_offset_not_recovered_on_decode :
    load_tiff_metadata (metadata_to_exif_dict
        { date_time := some ⟨1577836800, 3600⟩ }) =
      { date_time := some ⟨1577836800, 0⟩ } ∧
    (metadata_to_exif_dict
        { date_time := some ⟨1577836800, 3600⟩ }).exifDateTimeOriginal =
      some 1577840400 := by
  exact ⟨by decide, by decide⟩

/-- Claim C7 (code_bug evidence): a GPSInfo with altitude −10 m encodes to
`GPSAltitudeRef = 1`, `GPSAltitude = (1000, 100)` but decodes to altitude
+10: `load_tiff_metadata` reads `GPSAltitude` alone (line 169) and never
consults the stored `GPSAltitudeRef` sign field, so negative altitudes
come back positive. -/
theorem altitude_sign_dropped_on_decode :
    (load_tiff_metadata (metadata_to_exif_dict
        { gps_info := some { latitude := some 0, longitude := some 0,
                             altitude := some (-10) } })).gps_info =
      some { latitude := some 0, longitude := some 0, altitude := some 10 } ∧
    (metadata_to_exif_dict
        { gps_info := some { latitude := some 0, longitude := some 0,
                             altitude := some (-10) } }).gpsAltitudeRef = some 1 := by
  constructor
  · norm_num [load_tiff_metadata, metadata_to_exif_dict, gpsNonempty,
      dms_num_dem_to_decimal_degree, numdem_to_float, decimal_degree_to_dms_num_dem,
      ratTrunc, GPSInfo.mk.injEq]
    rw [show ((-1000 : ℚ)) = ((-1000 : Int) : ℚ) by norm_num, Int.ceil_intCast]
    norm_num
  · norm_num [metadata_to_exif_dict, decimal_degree_to_dms_num_dem, ratTrunc]

end TiffMeta

namespace AnnotationDb

lemma splitOnSemi_no_semi (A : Str) (h : ';' ∉ A) : splitOnSemi A = [A] := by
  induction A with
  | nil => rfl
  | cons c rest ih =>
    simp only [List.mem_cons, not_or] at h
    obtain ⟨h1, h2⟩ := h
    simp [splitOnSemi, Ne.symm h1, ih h2]

lemma splitOnSemi_append (A t : Str) (h : ';' ∉ A) :
    splitOnSemi (A ++ ';' :: t) = A :: splitOnSemi t := by
  induction A with
  | nil => simp [splitOnSemi]
  | cons c rest ih =>
    simp only [List.mem_cons, not_or] at h
    obtain ⟨h1, h2⟩ := h
    simp [splitOnSemi, Ne.symm h1, ih h2]

lemma path_to_index_ABC (A B C : Str) (hAB : A ≠ B) (hCB : C ≠ B) :
    path_to_index [A, B, C] B = some 1 := by
  simp [path_to_index, path_to_index_from, hCB]

end AnnotationDb

namespace AnnotationDb

/-- Claim C4 counterexample: a store state with the dirty flag set on
which `query_annotation_data` answers without reconciling — the state
(including the dirty flag) is completely untouched, so the claimed
"reconcile before answering, after which the flag is clean" fails for the
query operations. -/
theorem query_on_dirty_state_skips_reconcile :
    (query_annotation_data
        { db := [], imageFolder := [], queryCache := [], cacheDirty := true } none).2 =
      { db := [], imageFolder := [], queryCache := [], cacheDirty := true } ∧
    ({ db := [], imageFolder := [], queryCache := [], cacheDirty := true }
        : AccessorState).cacheDirty = true := ⟨rfl, rfl⟩

/-- Claim C4, amended: the flag is set at store construction, and the two
identifier-based read operations (`lookup_frame_source_info_from_identifier`
and `load_frame_source_info_and_image`) reconcile via `update_cache` when
they observe the dirty flag, leaving it clean; but the three query
operations (`query_annotation_data`, `query_text_in_any_field`,
`query_annotation_data_from_path`) never consult the flag: they leave it
(and for the first two, the whole state) unchanged. -/
theorem dirty_flag_reconcile_behavior
    (hashId : Str → Int) (s : AccessorState) (sid fsid text path : Str)
    (q : Option (DbDoc → Bool)) (db : List (Int × DbDoc))
    (folder : List (Str × FrameSourceInfo))
    (h : s.cacheDirty = true) :
    (AccessorState.init db folder).cacheDirty = true ∧
    (lookup_frame_source_info_from_identifier hashId s sid).2 = update_cache hashId s false ∧
    (lookup_frame_source_info_from_identifier hashId s sid).2.cacheDirty = false ∧
    (load_frame_source_info_and_image hashId s fsid).2 = update_cache hashId s false ∧
    (load_frame_source_info_and_image hashId s fsid).2.cacheDirty = false ∧
    (query_annotation_data s q).2 = s ∧
    (query_text_in_any_field s text).2 = s ∧
    (query_annotation_data_from_path s path).2.cacheDirty = s.cacheDirty := by
  have hlookup : (lookup_frame_source_info_from_identifier hashId s sid).2 =
      update_cache hashId s false := by
    simp only [lookup_frame_source_info_from_identifier, h, if_true]
    cases dbGet (update_cache hashId s false).db (hashId sid) <;> rfl
  have hload : (load_frame_source_info_and_image hashId s fsid).2 =
      update_cache hashId s false := by
    simp only [load_frame_source_info_and_image, h, if_true]
    cases dbGet (update_cache hashId s false).db (hashId fsid) with
    | none => rfl
    | some fj =>
      cases hl : lookupStr (update_cache hashId s false).imageFolder fj.filename <;>
        simp [hl]
  have hclean : (update_cache hashId s false).cacheDirty = false := rfl
  have hq : (query_annotation_data s q).2 = s := by cases q <;> rfl
  have ht : (query_text_in_any_field s text).2 = s := by
    simp only [query_text_in_any_field]
    split
    · rfl
    · rfl
  have hp : (query_annotation_data_from_path s path).2.cacheDirty = s.cacheDirty := by
    simp only [query_annotation_data_from_path]
    cases lookupStr s.queryCache path <;> rfl
  exact ⟨rfl, hlookup, hlookup ▸ hclean, hload, hload ▸ hclean, hq, ht, hp⟩

/-- Witness for `dirty_flag_reconcile_behavior` at a concrete dirty state. -/
theorem dirty_flag_reconcile_behavior_witness :
    (AccessorState.init [] []).cacheDirty = true ∧
    (lookup_frame_source_info_from_identifier (fun _ => 0)
        { db := [], imageFolder := [], queryCache := [], cacheDirty := true }
        []).2 =
      update_cache (fun _ => 0)
        { db := [], imageFolder := [], queryCache := [], cacheDirty := true } false ∧
    (lookup_frame_source_info_from_identifier (fun _ => 0)
        { db := [], imageFolder := [], queryCache := [], cacheDirty := true }
        []).2.cacheDirty = false ∧
    (load_frame_source_info_and_image (fun _ => 0)
        { db := [], imageFolder := [], queryCache := [], cacheDirty := true }
        []).2 =
      update_cache (fun _ => 0)
        { db := [], imageFolder := [], queryCache := [], cacheDirty := true } false ∧
    (load_frame_source_info_and_image (fun _ => 0)
        { db := [], imageFolder := [], queryCache := [], cacheDirty := true }
        []).2.cacheDirty = false ∧
    (query_annotation_data
        { db := [], imageFolder := [], queryCache := [], cacheDirty := true } none).2 =
      { db := [], imageFolder := [], queryCache := [], cacheDirty := true } ∧
    (query_text_in_any_field
        { db := [], imageFolder := [], queryCache := [], cacheDirty := true } []).2 =
      { db := [], imageFolder := [], queryCache := [], cacheDirty := true } ∧
    (query_annotation_data_from_path
        { db := [], imageFolder := [], queryCache := [], cacheDirty := true } []).2.cacheDirty =
      ({ db := [], imageFolder := [], queryCache := [], cacheDirty := true }
        : AccessorState).cacheDirty :=
  dirty_flag_reconcile_behavior (fun _ => 0)
    { db := [], imageFolder := [], queryCache := [], cacheDirty := true }
    [] [] [] [] none [] [] rfl

end AnnotationDb

namespace AnnotationDb

/-- Claim C5 (code_bug evidence): the write effects of
`save_annotated_image` contain exactly one direct write at the final
container path and no temporary-file write or rename — on the TIFF
re-encode branch (`image.save(path, "TIFF", ...)`) as well as on the
copy-and-patch branch (`piexif.insert(..., dest_path)`).  A failure after
this write therefore leaves the container file at its final path and (by
`save_none_annotations_raises_after_write_and_upsert`) the index already
mutated, contradicting the spec's temp-file-plus-atomic-rename
requirement. -/
theorem save_writes_directly_at_final_path :
    (save_annotated_image (fun _ => 0) (fun _ => "stem".toList) (fun _ => false)
        { db := [], imageFolder := [], queryCache := [], cacheDirty := true }
        ⟨{ source_file := "video.mp4".toList, annotations := some [] }, 0⟩).2.2 =
      [FsEffect.writeFinal "images/stem_0.ann.tiff".toList] ∧
    (save_annotated_image (fun _ => 0) (fun _ => "stem".toList) (fun _ => true)
        { db := [], imageFolder := [], queryCache := [], cacheDirty := true }
        ⟨{ source_file := "photo.jpg".toList, annotations := some [] }, 0⟩).2.2 =
      [FsEffect.writeFinal "images/stem.ann.jpg".toList] := by
  exact ⟨by decide, by decide⟩

/-- Claim C6: with the index holding exactly one entry, for path `B` at
source index 0, querying the `;`-joined multi-path `A;B;C` (pairwise
distinct sub-paths, none containing `;`) returns exactly one record, whose
`source_file` is the full joined string and whose `source_index` is 1, the
position of `B` among the sub-paths. -/
theorem multipath_query_rewrite
    (A B C : Str) (k : Int) (fn : Str) (fsi : FrameSourceInfo)
    (folder : List (Str × FrameSourceInfo)) (d : Bool)
    (hA : ';' ∉ A) (hB : ';' ∉ B) (hC : ';' ∉ C)
    (hAB : A ≠ B) (hBC : B ≠ C) (hAC : A ≠ C)
    (hfile : fsi.source_file = B) (hidx : fsi.source_index = 0) :
    (query_annotation_data_from_path
        { db := [(k, ⟨fn, fsi⟩)], imageFolder := folder, queryCache := [], cacheDirty := d }
        (A ++ [';'] ++ B ++ [';'] ++ C)).1 =
      [{ fsi with source_file := A ++ [';'] ++ B ++ [';'] ++ C, source_index := 1 }] := by
  have hsplit : splitOnSemi (A ++ [';'] ++ B ++ [';'] ++ C) = [A, B, C] := by
    have hP : A ++ [';'] ++ B ++ [';'] ++ C = A ++ ';' :: (B ++ ';' :: C) := by simp
    rw [hP, splitOnSemi_append _ _ hA, splitOnSemi_append _ _ hB, splitOnSemi_no_semi _ hC]
  simp only [query_annotation_data_from_path, lookupStr, hsplit, hfile,
    path_to_index_ABC A B C hAB (Ne.symm hBC)]
  simp [List.filter, hfile, path_to_index_ABC A B C hAB (Ne.symm hBC)]

/-- Witness for `multipath_query_rewrite` at concrete paths a, b, c. -/
theorem multipath_query_rewrite_witness :
    (query_annotation_data_from_path
        { db := [(0, ⟨"f".toList, { source_file := "b".toList }⟩)], imageFolder := [],
          queryCache := [], cacheDirty := true }
        ("a".toList ++ [';'] ++ "b".toList ++ [';'] ++ "c".toList)).1 =
      [{ ({ source_file := "b".toList } : FrameSourceInfo) with
          source_file := "a".toList ++ [';'] ++ "b".toList ++ [';'] ++ "c".toList,
          source_index := 1 }] :=
  multipath_query_rewrite "a".toList "b".toList "c".toList 0 "f".toList
    { source_file := "b".toList } [] true
    (by decide) (by decide) (by decide) (by decide) (by decide) (by decide) rfl rfl

/-- Claim C9: saving a `FrameSourceInfoAndImage` whose
`frame_source_info.annotations` is `None` — the field's declared default —
raises (`len(None)` in the success print on line 323), and it does so only
after the container file has been written into the image folder and the
entry upserted into the index; the query cache is NOT invalidated
(`_clear_caches` on line 324 is never reached). -/
theorem save_none_annotations_raises_after_write_and_upsert
    (hashId : Str → Int) (nameHash : FrameSourceInfo → Str) (fileExists : Str → Bool)
    (s : AccessorState) (fsii : FrameSourceInfoAndImage)
    (h : fsii.frame_source_info.annotations = none) :
    (save_annotated_image hashId nameHash fileExists s fsii).1 =
      .error .typeErrorLenOfNone ∧
    (save_annotated_image hashId nameHash fileExists s fsii).2.1 =
      { s with
        imageFolder := folderPut s.imageFolder
          (basename (save_to_image_file nameHash fileExists imageFolderPath fsii).1)
          fsii.frame_source_info,
        db := upsertDoc s.db (hashId fsii.frame_source_info.get_source_identifier)
          ⟨basename (save_to_image_file nameHash fileExists imageFolderPath fsii).1,
           fsii.frame_source_info⟩ } ∧
    (save_annotated_image hashId nameHash fileExists s fsii).2.1.queryCache = s.queryCache ∧
    ({ source_file := [] } : FrameSourceInfo).annotations = none := by
  refine ⟨?_, ?_, ?_, rfl⟩ <;> simp only [save_annotated_image, h]

/-- Witness for `save_none_annotations_raises_after_write_and_upsert`. -/
theorem save_none_annotations_raises_witness :
    (save_annotated_image (fun _ => 7) (fun _ => "n".toList) (fun _ => false)
        { db := [], imageFolder := [], queryCache := [("p".toList, [])], cacheDirty := false }
        ⟨{ source_file := "v.mp4".toList }, 0⟩).1 = .error .typeErrorLenOfNone ∧
    (save_annotated_image (fun _ => 7) (fun _ => "n".toList) (fun _ => false)
        { db := [], imageFolder := [], queryCache := [("p".toList, [])], cacheDirty := false }
        ⟨{ source_file := "v.mp4".toList }, 0⟩).2.1 =
      { ({ db := [], imageFolder := [], queryCache := [("p".toList, [])],
           cacheDirty := false } : AccessorState) with
        imageFolder := folderPut [] (basename (save_to_image_file (fun _ => "n".toList)
          (fun _ => false) imageFolderPath ⟨{ source_file := "v.mp4".toList }, 0⟩).1)
          ({ source_file := "v.mp4".toList } : FrameSourceInfo)
        db := upsertDoc [] ((fun _ => (7 : Int))
            ({ source_file := "v.mp4".toList } : FrameSourceInfo).get_source_identifier)
          ⟨basename (save_to_image_file (fun _ => "n".toList) (fun _ => false)
            imageFolderPath ⟨{ source_file := "v.mp4".toList }, 0⟩).1,
           { source_file := "v.mp4".toList }⟩ } ∧
    (save_annotated_image (fun _ => 7) (fun _ => "n".toList) (fun _ => false)
        { db := [], imageFolder := [], queryCache := [("p".toList, [])], cacheDirty := false }
        ⟨{ source_file := "v.mp4".toList }, 0⟩).2.1.queryCache = [("p".toList, [])] ∧
    ({ source_file := [] } : FrameSourceInfo).annotations = none :=
  save_none_annotations_raises_after_write_and_upsert (fun _ => 7) (fun _ => "n".toList)
    (fun _ => false)
    { db := [], imageFolder := [], queryCache := [("p".toList, [])], cacheDirty := false }
    ⟨{ source_file := "v.mp4".toList }, 0⟩ rfl

/-- Claim C10: deleting by a source identifier that has no entry in the
index raises (`KeyError` from `db.remove(doc_ids=[hash_code])` on a
nonexistent doc id) rather than returning an absence or doing nothing, and
the state is completely unchanged: no index entry is removed and no
backing file is deleted. -/
theorem delete_missing_identifier_raises
    (hashId : Str → Int) (s : AccessorState) (sid : Str)
    (h : dbGet s.db (hashId sid) = none) :
    delete_annotation_data hashId s sid = (.error .keyError, s) := by
  simp [delete_annotation_data, dbRemove, h]

/-- Witness for `delete_missing_identifier_raises` on an empty index. -/
theorem delete_missing_identifier_raises_witness :
    delete_annotation_data (fun _ => 5)
        { db := [], imageFolder := [], queryCache := [], cacheDirty := true } [] =
      (.error .keyError,
       { db := [], imageFolder := [], queryCache := [], cacheDirty := true }) :=
  delete_missing_identifier_raises (fun _ => 5)
    { db := [], imageFolder := [], queryCache := [], cacheDirty := true } [] rfl

end AnnotationDb

namespace Serial

theorem dictLookup_serializeEntries (k : String) (fs : PVEntries) :
    dictLookup k (serializeEntries fs) = (dictLookup k fs).map serialize := by
  match fs with
  | .nil => simp [serializeEntries, dictLookup]
  | .cons k' v rest =>
    simp only [serializeEntries, dictLookup]
    by_cases hk : k' == k
    · simp [hk]
    · simp [hk, dictLookup_serializeEntries k rest]

mutual

theorem deserialize_serialize (v : PValue) (sh : PShape) (h : hasShape v sh = true) :
    deserialize sh (serialize v) = .ok v := by
  cases v with
  | vnone => cases sh <;> simp_all [serialize, deserialize, hasShape]
  | vbool b => cases sh <;> simp_all [serialize, deserialize, hasShape]
  | vint n => cases sh <;> simp_all [serialize, deserialize, hasShape]
  | vfloat q => cases sh <;> simp_all [serialize, deserialize, hasShape]
  | vstr s => cases sh <;> simp_all [serialize, deserialize, hasShape]
  | vblob b => cases sh <;> simp_all [serialize, deserialize, hasShape]
  | vlist xs =>
    cases sh with
    | sList el =>
      have h' : listHasShape xs el = true := by simpa [hasShape] using h
      simp [serialize, deserialize, deserializeList_serializeList xs el h']
    | sNone => simp [hasShape] at h
    | sBool => simp [hasShape] at h
    | sInt => simp [hasShape] at h
    | sFloat => simp [hasShape] at h
    | sStr => simp [hasShape] at h
    | sTuple els => simp [hasShape] at h
    | sDict vs => simp [hasShape] at h
    | sEnum members => simp [hasShape] at h
    | sBlob => simp [hasShape] at h
    | sRecord cls fields => simp [hasShape] at h
  | vtuple xs =>
    cases sh with
    | sTuple els =>
      have h' : tupleHasShape xs els = true := by simpa [hasShape] using h
      simp [serialize, deserialize, deserializeTuple_serializeList xs els h']
    | sNone => simp [hasShape] at h
    | sBool => simp [hasShape] at h
    | sInt => simp [hasShape] at h
    | sFloat => simp [hasShape] at h
    | sStr => simp [hasShape] at h
    | sList el => simp [hasShape] at h
    | sDict vs => simp [hasShape] at h
    | sEnum members => simp [hasShape] at h
    | sBlob => simp [hasShape] at h
    | sRecord cls fields => simp [hasShape] at h
  | vdict es =>
    cases sh with
    | sDict vs =>
      have h' : entriesHaveShape es vs = true := by simpa [hasShape] using h
      simp [serialize, deserialize, deserializeEntries_serializeEntries es vs h']
    | sNone => simp [hasShape] at h
    | sBool => simp [hasShape] at h
    | sInt => simp [hasShape] at h
    | sFloat => simp [hasShape] at h
    | sStr => simp [hasShape] at h
    | sList el => simp [hasShape] at h
    | sTuple els => simp [hasShape] at h
    | sEnum members => simp [hasShape] at h
    | sBlob => simp [hasShape] at h
    | sRecord cls fields => simp [hasShape] at h
  | venum nm val =>
    cases sh with
    | sEnum members =>
      have h' : findMember members val = some (nm, val) := by
        have := h
        simp only [hasShape] at this
        exact eq_of_beq this
      simp [serialize, deserialize, h']
    | sNone => simp [hasShape] at h
    | sBool => simp [hasShape] at h
    | sInt => simp [hasShape] at h
    | sFloat => simp [hasShape] at h
    | sStr => simp [hasShape] at h
    | sList el => simp [hasShape] at h
    | sTuple els => simp [hasShape] at h
    | sDict vs => simp [hasShape] at h
    | sBlob => simp [hasShape] at h
    | sRecord cls fields => simp [hasShape] at h
  | vrecord cls fs =>
    cases sh with
    | sRecord cls' fields =>
      have h' := h
      simp only [hasShape, Bool.and_eq_true, beq_iff_eq] at h'
      obtain ⟨⟨hcls, hfs⟩, hnd⟩ := h'
      have hnd' : (fields.map Prod.fst).Nodup := by
        simpa [fieldNamesNodup] using hnd
      subst hcls
      simp [serialize, deserialize,
        deserializeFields_roundtrip fields fs (serializeEntries fs) hfs hnd'
          (fun _ _ => rfl)]
    | sNone => simp [hasShape] at h
    | sBool => simp [hasShape] at h
    | sInt => simp [hasShape] at h
    | sFloat => simp [hasShape] at h
    | sStr => simp [hasShape] at h
    | sList el => simp [hasShape] at h
    | sTuple els => simp [hasShape] at h
    | sDict vs => simp [hasShape] at h
    | sEnum members => simp [hasShape] at h
    | sBlob => simp [hasShape] at h
termination_by sizeOf v

theorem deserializeList_serializeList (xs : PVList) (el : PShape)
    (h : listHasShape xs el = true) :
    deserializeList el (serializeList xs) = .ok xs := by
  cases xs with
  | nil => simp [serializeList, deserializeList]
  | cons x rest =>
    have h' := h
    simp only [listHasShape, Bool.and_eq_true] at h'
    obtain ⟨h1, h2⟩ := h'
    simp [serializeList, deserializeList, deserialize_serialize x el h1,
      deserializeList_serializeList rest el h2]
termination_by sizeOf xs

theorem deserializeTuple_serializeList (xs : PVList) (els : List PShape)
    (h : tupleHasShape xs els = true) :
    deserializeTuple els (serializeList xs) = .ok xs := by
  cases xs with
  | nil =>
    cases els with
    | nil => simp [serializeList, deserializeTuple]
    | cons e es => simp [tupleHasShape] at h
  | cons x rest =>
    cases els with
    | nil => simp [tupleHasShape] at h
    | cons e es =>
      have h' := h
      simp only [tupleHasShape, Bool.and_eq_true] at h'
      obtain ⟨h1, h2⟩ := h'
      simp [serializeList, deserializeTuple, deserialize_serialize x e h1,
        deserializeTuple_serializeList rest es h2]
termination_by sizeOf xs

theorem deserializeEntries_serializeEntries (es : PVEntries) (vs : PShape)
    (h : entriesHaveShape es vs = true) :
    deserializeEntries vs (serializeEntries es) = .ok es := by
  cases es with
  | nil => simp [serializeEntries, deserializeEntries]
  | cons k v rest =>
    have h' := h
    simp only [entriesHaveShape, Bool.and_eq_true] at h'
    obtain ⟨h1, h2⟩ := h'
    simp [serializeEntries, deserializeEntries, deserialize_serialize v vs h1,
      deserializeEntries_serializeEntries rest vs h2]
termination_by sizeOf es

theorem deserializeFields_roundtrip (fields : List (String × PShape)) (fs : PVEntries)
    (total : PVEntries) (h : fieldsHaveShape fs fields = true)
    (hnd : (fields.map Prod.fst).Nodup)
    (hlk : ∀ p ∈ fields.map Prod.fst, dictLookup p total = dictLookup p (serializeEntries fs)) :
    deserializeFields fields total = .ok fs := by
  cases fields with
  | nil =>
    cases fs with
    | nil => simp [deserializeFields]
    | cons k v rest => simp [fieldsHaveShape] at h
  | cons fld rest =>
    cases fs with
    | nil => simp [fieldsHaveShape] at h
    | cons k v es =>
      obtain ⟨fn, fsh⟩ := fld
      have h' := h
      simp only [fieldsHaveShape, Bool.and_eq_true, beq_iff_eq] at h'
      obtain ⟨⟨hk, hv⟩, hrest⟩ := h'
      subst hk
      have hlk0 : dictLookup k total = some (serialize v) := by
        have := hlk k (by simp)
        simpa [serializeEntries, dictLookup] using this
      have hnd2 : (k :: rest.map Prod.fst).Nodup := by
        simpa only [List.map_cons] using hnd
      have hndrest : (rest.map Prod.fst).Nodup := (List.nodup_cons.mp hnd2).2
      have hknotin : k ∉ rest.map Prod.fst := (List.nodup_cons.mp hnd2).1
      have hlkrest : ∀ p ∈ rest.map Prod.fst,
          dictLookup p total = dictLookup p (serializeEntries es) := by
        intro p hp
        have hpk : ¬(k == p) = true := by
          simp only [beq_iff_eq]
          intro e
          exact hknotin (e ▸ hp)
        have := hlk p (by simp [hp])
        simpa [serializeEntries, dictLookup, hpk] using this
      simp [deserializeFields, hlk0, deserialize_serialize v fsh hv,
        deserializeFields_roundtrip rest es total hrest hndrest hlkrest]
termination_by sizeOf fs

end

end Serial

namespace Serial

/-- Claim C8: the serializer round-trip law.  For every value `v` built
from the supported shapes (null, bool, int, float, string, sequences,
string-keyed mappings, enumerations, opaque blobs, records with declared
fields) with no excluded fields,
`DataClassWithNumpyPreSerializer.deserialize(shape(v), serialize(v)) == v`. -/
theorem serializer_roundtrip (v : PValue) (sh : PShape) (h : hasShape v sh = true) :
    deserialize sh (serialize v) = Except.ok v :=
  deserialize_serialize v sh h

/-- Witness for `serializer_roundtrip`: a record holding an int, a list of
floats, a tuple and an enum member. -/
theorem serializer_roundtrip_witness :
    deserialize
      (.sRecord "FrameSourceInfo"
        [("a", .sInt), ("b", .sList .sFloat), ("c", .sTuple [.sBool]),
         ("d", .sEnum [("RED", 1), ("BLUE", 2)])])
      (serialize
        (.vrecord "FrameSourceInfo"
          (.cons "a" (.vint 3)
            (.cons "b" (.vlist (.cons (.vfloat (1/2)) .nil))
              (.cons "c" (.vtuple (.cons (.vbool true) .nil))
                (.cons "d" (.venum "RED" 1) .nil)))))) =
      Except.ok
        (.vrecord "FrameSourceInfo"
          (.cons "a" (.vint 3)
            (.cons "b" (.vlist (.cons (.vfloat (1/2)) .nil))
              (.cons "c" (.vtuple (.cons (.vbool true) .nil))
                (.cons "d" (.venum "RED" 1) .nil))))) :=
  serializer_roundtrip
    (.vrecord "FrameSourceInfo"
      (.cons "a" (.vint 3)
        (.cons "b" (.vlist (.cons (.vfloat (1/2)) .nil))
          (.cons "c" (.vtuple (.cons (.vbool true) .nil))
            (.cons "d" (.venum "RED" 1) .nil)))))
    (.sRecord "FrameSourceInfo"
      [("a", .sInt), ("b", .sList .sFloat), ("c", .sTuple [.sBool]),
       ("d", .sEnum [("RED", 1), ("BLUE", 2)])])
    (by decide)

end Serial
